import Mathlib

/-!
Shallow embedding of the widget-positioning core of the alloy-editor
repository (the `WidgetPosition` / `WidgetInteractionPoint` mixin):
interaction-point resolution, viewport-constrained placement, scroll
re-clamping, the show transition and the animation-frame bookkeeping.

Numeric page coordinates are modelled as rationals (JavaScript numbers
restricted to the arithmetic the code performs: +, -, *, /2, min, max,
comparisons). Optional / possibly-undefined JavaScript values are
`Option`s, and the JavaScript truthiness test `pos.x && pos.y` on
numbers is modelled as presence-and-nonzero. A property access on
`undefined` (a TypeError at run time) is modelled by `Except`.
-/

namespace AlloyEditor

/-- The CKEDITOR selection-direction constants, plus the absence of a
direction (`getWidgetXYPoint` has a fall-through branch for any value
that is none of the four constants). -/
inductive Direction where
  | topToBottom
  | bottomToTop
  | leftToRight
  | rightToLeft
  | noDirection
deriving DecidableEq, Repr

/-- A sub-rectangle of the selection region (`startRect` / `endRect`):
the fields the core reads. -/
structure Rect where
  left : ℚ
  top : ℚ
  right : ℚ
deriving DecidableEq, Repr

/-- The selection region as returned by the host editor
(`selectionData.region`): the fields the core reads. `startRect` and
`endRect` are optional. -/
structure Region where
  left : ℚ
  top : ℚ
  right : ℚ
  bottom : ℚ
  width : ℚ
  direction : Direction
  startRect : Option Rect
  endRect : Option Rect
deriving DecidableEq, Repr

/-- `selectionData` payload: the core only reads its `region`. -/
structure SelectionData where
  region : Region
deriving DecidableEq, Repr

/-- The `nativeEvent.target` element as the Y-edge heuristic reads it:
its computed `overflow` style and its offset geometry. A present
target corresponds to a truthy `elementTarget.$`. -/
structure Target where
  overflow : String
  offsetTop : ℚ
  offsetHeight : ℚ
deriving DecidableEq, Repr

/-- The native browser event: `pageX` may be `undefined` (e.g. a
keyboard-driven selection), and so may `target`. -/
structure NativeEvent where
  pageX : Option ℚ
  target : Option Target
deriving DecidableEq, Repr

/-- `editorEvent.data`: `selectionData` is always present in the
payload, `nativeEvent` may be absent. -/
structure EventPayload where
  selectionData : SelectionData
  nativeEvent : Option NativeEvent
deriving DecidableEq, Repr

/-- The `editorEvent` prop: its `data` field may itself be null. -/
structure EditorEvent where
  data : Option EventPayload
deriving DecidableEq, Repr

/-- Output of the interaction-point resolver. -/
structure InteractionPoint where
  direction : Direction
  x : ℚ
  y : ℚ
deriving DecidableEq, Repr

/-- The run-time error raised by a property access on `undefined`. -/
inductive JsError where
  | typeError
deriving DecidableEq, Repr

/-- JavaScript truthiness of a possibly-undefined number: `undefined`
and `0` are falsy, every other number is truthy (NaN does not arise in
this core). -/
def truthyNum : Option ℚ → Bool
  | none => false
  | some q => if q = 0 then false else true

/-- `_getXPoint(selectionData, eventX)` (source lines 250-273): the
X-edge heuristic. -/
def getXPoint (selectionData : SelectionData) (eventX : ℚ) : ℚ :=
  let region := selectionData.region
  let left := match region.startRect with
    | some r => r.left
    | none => region.left
  let right := match region.endRect with
    | some r => r.right
    | none => region.right
  if left < eventX ∧ right > eventX then
    eventX
  else
    let leftDist := |left - eventX|
    let rightDist := |right - eventX|
    if leftDist < rightDist then left else right

/-- `_getYPoint(selectionData, nativeEvent)` (source lines 286-307):
the Y-edge heuristic. The guard `selectionData && nativeEvent` failing
leaves `y = 0`; a missing target makes `elementTarget.$` falsy, which
falls into the `region.bottom` branch. -/
def getYPoint (selectionData : Option SelectionData)
    (nativeEvent : Option NativeEvent) : ℚ :=
  match selectionData, nativeEvent with
  | some sd, some ne =>
    match ne.target with
    | some t =>
      if t.overflow = "auto" then t.offsetTop + t.offsetHeight
      else sd.region.bottom
    | none => sd.region.bottom
  | _, _ => 0

/-- The direction-override rule of `getInteractionPoint` (source lines
195-203): a single-line multi-rect selection forces BOTTOM_TO_TOP. -/
def resolvedDirection (selectionData : SelectionData) : Direction :=
  match selectionData.region.endRect, selectionData.region.startRect with
  | some endRect, some startRect =>
    if startRect.top = endRect.top then Direction.bottomToTop
    else selectionData.region.direction
  | _, _ => selectionData.region.direction

/-- `getInteractionPoint()` (source lines 177-237). Returns `ok none`
when the editor event or its data payload is absent. The source reads
`eventPayload.nativeEvent.pageX` before any further branching, so a
payload without a native event raises a TypeError, modelled as
`Except.error`. The branch on `pos.x && pos.y` is JavaScript
truthiness on the numbers `pageX` and `region.top`. -/
def getInteractionPoint (editorEvent : Option EditorEvent) :
    Except JsError (Option InteractionPoint) :=
  let eventPayload := editorEvent.bind EditorEvent.data
  match eventPayload with
  | none => Except.ok none
  | some payload =>
    match payload.nativeEvent with
    | none => Except.error JsError.typeError
    | some nativeEvent =>
      let selectionData := payload.selectionData
      let posX := nativeEvent.pageX
      let posY := selectionData.region.top
      let direction := resolvedDirection selectionData
      if truthyNum posX ∧ truthyNum (some posY) then
        let x := getXPoint selectionData (posX.getD 0)
        let y :=
          if direction = Direction.bottomToTop then
            min posY selectionData.region.top
          else
            max posY (getYPoint (some selectionData) (some nativeEvent))
        Except.ok (some ⟨direction, x, y⟩)
      else
        let x := selectionData.region.left + selectionData.region.width / 2
        let y :=
          if direction = Direction.topToBottom then
            getYPoint (some selectionData) (some nativeEvent)
          else
            selectionData.region.top
        Except.ok (some ⟨direction, x, y⟩)

/-- The rectangle argument of `getConstrainedPosition`. -/
structure Attrs where
  height : ℚ
  left : ℚ
  top : ℚ
  width : ℚ
deriving DecidableEq, Repr

/-- The view-pane size argument of `getConstrainedPosition`; the core
only reads its `width`. -/
structure ViewPane where
  width : ℚ
deriving DecidableEq, Repr

/-- `getConstrainedPosition(attrs, viewPaneSize)` (source lines
137-157), with the view-pane size supplied (the source defaults it to
the current viewport when omitted). -/
def getConstrainedPosition (attrs : Attrs) (viewPaneSize : ViewPane) :
    ℚ × ℚ :=
  let x := attrs.left
  let y := attrs.top
  let x :=
    if attrs.left + attrs.width > viewPaneSize.width then
      x - (attrs.left + attrs.width - viewPaneSize.width)
    else x
  let y := if y < 0 then 0 else y
  (x, y)

/-- The gutter configuration prop. -/
structure Gutter where
  left : ℚ
  top : ℚ
deriving DecidableEq, Repr

/-- The measured size of the widget's DOM node
(`domNode.offsetWidth` / `domNode.offsetHeight`). -/
structure NodeSize where
  offsetWidth : ℚ
  offsetHeight : ℚ
deriving DecidableEq, Repr

/-- `getWidgetXYPoint(left, top, direction)` (source lines 323-359);
the widget's node size and the gutter prop are the instance context. -/
def getWidgetXYPoint (node : NodeSize) (gutter : Gutter)
    (left top : ℚ) (direction : Direction) : ℚ × ℚ :=
  let (left, top) :=
    if direction = Direction.topToBottom ∨
        direction = Direction.bottomToTop then
      (left - gutter.left - node.offsetWidth / 2,
        if direction = Direction.topToBottom then top + gutter.top
        else top - node.offsetHeight - gutter.top)
    else if direction = Direction.leftToRight ∨
        direction = Direction.rightToLeft then
      (if direction = Direction.leftToRight then
          left + gutter.left + node.offsetHeight / 2
        else left - 3 * node.offsetHeight / 2 - gutter.left,
        top - gutter.top - node.offsetHeight / 2)
    else (left, top)
  let left := if left < 0 then 0 else left
  let top := if top < 0 then 0 else top
  (left, top)

/-- The containing scrollable element (`uiNode`), as `updatePosition`
reads it: its tag name, the `parseInt`-parsed computed margins, its
client width and its scroll offset. When the editor context has no
`uiNode`, the source falls back to `document.body`, whose tag name is
`BODY`. -/
structure UiNode where
  tagName : String
  marginLeft : Int
  marginRight : Int
  clientWidth : ℚ
  scrollTop : ℚ
deriving DecidableEq, Repr

/-- `totalWidth` as computed in `updatePosition` (source lines
501-502): margin-left + clientWidth + margin-right. -/
def totalWidth (uiNode : UiNode) : ℚ :=
  (uiNode.marginLeft : ℚ) + uiNode.clientWidth + (uiNode.marginRight : ℚ)

/-- The scroll offset `updatePosition` adds to the vertical coordinate
(source lines 504-505): the ui node's `scrollTop` unless the ui node
is the document body. -/
def effectiveScrollTop (uiNode : UiNode) : ℚ :=
  if uiNode.tagName ≠ "BODY" then uiNode.scrollTop else 0

/-- `updatePosition()` (source lines 485-526). Returns the `left`/`top`
pair written to the widget's inline style, or `none` when the
interaction point is unresolvable or the widget is unmounted; the
TypeError of `getInteractionPoint` propagates. -/
def updatePosition (editorEvent : Option EditorEvent)
    (domNode : Option NodeSize) (uiNode : UiNode) (gutter : Gutter) :
    Except JsError (Option (ℚ × ℚ)) :=
  match getInteractionPoint editorEvent with
  | Except.error e => Except.error e
  | Except.ok interactionPoint =>
    match interactionPoint, domNode with
    | some p, some node =>
      let xy := getWidgetXYPoint node gutter p.x p.y p.direction
      let x := xy.1
      let y := xy.2 + effectiveScrollTop uiNode
      let x := if x < 0 then 0 else x
      let x :=
        if x > totalWidth uiNode - node.offsetWidth then
          totalWidth uiNode - node.offsetWidth
        else x
      Except.ok (some (x, y))
    | _, _ => Except.ok none

/-- The widget's rendered DOM node: its measured size, its class list
and the inline styles the transition controller mutates. -/
structure DomState where
  size : NodeSize
  classes : List String
  styleLeft : ℚ
  styleTop : ℚ
  opacity : ℚ
  pointerEvents : String
deriving DecidableEq, Repr

/-- One DOM mutation performed on the widget's node (a `setStyles`
call or a class-list change). -/
inductive Mutation where
  | setStyles
  | addClass (c : String)
  | removeClass (c : String)
deriving DecidableEq, Repr

/-- `addClass`: the DOM class list gains the class if absent. -/
def addClass (classes : List String) (c : String) : List String :=
  if c ∈ classes then classes else classes ++ [c]

/-- `removeClass`: the DOM class list drops the class. -/
def removeClass (classes : List String) (c : String) : List String :=
  classes.filter (fun c0 => c0 ≠ c)

/-- `isVisible()` (source lines 369-379): true iff the widget is
mounted and its node carries the `alloy-editor-visible` marker
class. -/
def isVisible (dom : Option DomState) : Bool :=
  match dom with
  | some d => decide ("alloy-editor-visible" ∈ d.classes)
  | none => false

/-- `moveToPoint(startPoint, endPoint)` (source lines 390-421), with
the animation-frame callback applied in sequence (the source runs it
synchronously when `requestAnimationFrame` is unavailable, and on the
next frame otherwise). Returns the node state after the callback and
the list of DOM mutations performed. The `transitionend` listener
that later restores pointer events is an edge event outside this
sequential model. -/
def moveToPoint (d : DomState) (startPoint endPoint : ℚ × ℚ) :
    DomState × List Mutation :=
  let d1 : DomState :=
    { d with
        styleLeft := startPoint.1
        styleTop := startPoint.2
        opacity := 0
        pointerEvents := "none" }
  let d2 : DomState :=
    { d1 with classes := removeClass d1.classes "alloy-editor-invisible" }
  let d3 : DomState :=
    { d2 with classes := addClass d2.classes "ae-toolbar-transition" }
  let d4 : DomState :=
    { d3 with classes := addClass d3.classes "alloy-editor-visible" }
  let d5 : DomState :=
    { d4 with styleLeft := endPoint.1, styleTop := endPoint.2, opacity := 1 }
  (d5,
    [Mutation.setStyles,
      Mutation.removeClass "alloy-editor-invisible",
      Mutation.addClass "ae-toolbar-transition",
      Mutation.addClass "alloy-editor-visible",
      Mutation.setStyles])

/-- The props and context `show` reads besides the widget node. -/
structure ShowEnv where
  editorEvent : Option EditorEvent
  uiNode : Option UiNode
  constrainToViewport : Bool
  viewPane : ViewPane
  selectionRegion : Region
deriving DecidableEq, Repr

/-- `show()` (source lines 430-476). Returns the widget node state
after the call together with the DOM mutations performed: a no-op
(empty mutation list) when the widget is already visible, is not
mounted, or the interaction point is unresolvable. -/
def showWidget (env : ShowEnv) (dom : Option DomState) :
    Except JsError (Option DomState × List Mutation) :=
  let scrollTop := match env.uiNode with
    | some u => u.scrollTop
    | none => 0
  match dom with
  | none => Except.ok (none, [])
  | some d =>
    if isVisible (some d) then Except.ok (some d, [])
    else
      match getInteractionPoint env.editorEvent with
      | Except.error e => Except.error e
      | Except.ok none => Except.ok (some d, [])
      | Except.ok (some interactionPoint) =>
        let initialX := d.styleLeft
        let finalP :=
          if env.constrainToViewport then
            getConstrainedPosition
              ⟨d.size.offsetHeight, d.styleLeft, d.styleTop,
                d.size.offsetWidth⟩ env.viewPane
          else (d.styleLeft, d.styleTop)
        let initialY :=
          if interactionPoint.direction = Direction.topToBottom then
            env.selectionRegion.bottom + scrollTop
          else
            env.selectionRegion.top + scrollTop
        Except.ok (some (moveToPoint d (initialX, initialY) finalP).1,
          (moveToPoint d (initialX, initialY) finalP).2)

/-- Bookkeeping state of the animation-frame mechanism: the set of
handles the browser holds as pending (as a list of distinct fresh
ids), the next fresh handle id, and the `_animationFrameId` field the
widget stores. -/
structure AnimState where
  pending : List ℕ
  nextId : ℕ
  animationFrameId : Option ℕ
deriving DecidableEq, Repr

/-- `_animate(callback)` (source lines 537-543), in the branch where
`requestAnimationFrame` exists: the browser registers a fresh pending
handle and the widget overwrites `_animationFrameId` with it. No
cancellation of a previously stored handle is performed. -/
def animate (s : AnimState) : AnimState :=
  { pending := s.nextId :: s.pending
    nextId := s.nextId + 1
    animationFrameId := some s.nextId }

/-- `cancelAnimation()` (source lines 114-118): cancels the handle
currently stored in `_animationFrameId`, if any. -/
def cancelAnimation (s : AnimState) : AnimState :=
  match s.animationFrameId with
  | some id => { s with pending := s.pending.filter (fun i => i ≠ id) }
  | none => s

/-- The animation-frame operations the widget can perform: a
scheduling (a `moveToPoint` call reaching `_animate`, as every `show`
that mutates the DOM does) or an explicit `cancelAnimation` call. -/
inductive AnimOp where
  | schedule
  | cancel
deriving DecidableEq, Repr

/-- Run a sequence of animation-frame operations. -/
def runAnimOps : List AnimOp → AnimState → AnimState
  | [], s => s
  | AnimOp.schedule :: ops, s => runAnimOps ops (animate s)
  | AnimOp.cancel :: ops, s => runAnimOps ops (cancelAnimation s)

/-- The initial animation state: no pending handle, nothing stored. -/
def initAnimState : AnimState := ⟨[], 0, none⟩

/-- The at-most-one-outstanding-handle invariant claimed for the
transition controller. -/
def atMostOneOutstanding (s : AnimState) : Prop := s.pending.length ≤ 1

/-- The `left` edge the X-edge heuristic works with: `startRect.left`
when a start rect is present, else the region's left. -/
def regionLeftEdge (selectionData : SelectionData) : ℚ :=
  match selectionData.region.startRect with
  | some r => r.left
  | none => selectionData.region.left

/-- The `right` edge the X-edge heuristic works with: `endRect.right`
when an end rect is present, else the region's right. -/
def regionRightEdge (selectionData : SelectionData) : ℚ :=
  match selectionData.region.endRect with
  | some r => r.right
  | none => selectionData.region.right

/-- A selection region with effective edges `left = 10`, `right = 50`,
used by the worked examples of the spec. -/
def sampleRegionLR : SelectionData :=
  ⟨⟨10, 0, 50, 0, 40, Direction.noDirection, none, none⟩⟩

/-- A concrete selection region: left 0, top 5, right 10, bottom 8,
width 10, direction TOP_TO_BOTTOM, no sub-rects. -/
def pointerRegion : Region :=
  ⟨0, 5, 10, 8, 10, Direction.topToBottom, none, none⟩

/-- A concrete event payload with a usable pointer at x = 4 and no
event target. -/
def pointerPayload : EventPayload :=
  ⟨⟨pointerRegion⟩, some ⟨some 4, none⟩⟩

/-- The concrete editor event wrapping `pointerPayload`. -/
def pointerEditorEvent : EditorEvent := ⟨some pointerPayload⟩

/-- A native event whose `pageX` is present but equal to 0 (falsy in
JavaScript), targeting a scrollable element with content-bottom 2. -/
def zeroXNativeEvent : NativeEvent := ⟨some 0, some ⟨"auto", 1, 1⟩⟩

/-- An event payload whose `pageX` is present but 0. -/
def zeroXPayload : EventPayload := ⟨⟨pointerRegion⟩, some zeroXNativeEvent⟩

/-- A single-line multi-rect region: both sub-rects present with equal
tops but a region direction of TOP_TO_BOTTOM. -/
def singleLineRegion : Region :=
  ⟨0, 5, 10, 8, 10, Direction.topToBottom, some ⟨1, 5, 3⟩, some ⟨7, 5, 9⟩⟩

/-- The concrete payload wrapping `singleLineRegion` with a usable
pointer at x = 4. -/
def singleLinePayload : EventPayload :=
  ⟨⟨singleLineRegion⟩, some ⟨some 4, none⟩⟩

/-- A widget node of size 20×5. -/
def smallNode : NodeSize := ⟨20, 5⟩

/-- The default gutter of the widget: left 0, top 10. -/
def defaultGutter : Gutter := ⟨0, 10⟩

/-- A scrollable container narrower (total width 10) than the 20-wide
widget node. -/
def narrowUiNode : UiNode := ⟨"DIV", 0, 0, 10, 3⟩

/-- A scrollable container comfortably wider (total width 200) than
the widget node. -/
def wideUiNode : UiNode := ⟨"DIV", 0, 0, 200, 3⟩

/-- A concrete widget node already carrying the visibility marker
class. -/
def visibleDom : DomState := ⟨⟨1, 1⟩, ["alloy-editor-visible"], 0, 0, 1, ""⟩

/-- A concrete `show` environment with no editor event and no ui
node. -/
def emptyShowEnv : ShowEnv := ⟨none, none, false, ⟨0⟩, pointerRegion⟩

section Theorems

/-- `if x < 0 then 0 else x` is `max x 0`. -/
theorem ite_lt_zero_eq_max (x : ℚ) : (if x < 0 then 0 else x) = max x 0 := by
  rcases lt_or_le x 0 with h | h
  · simp [h, max_eq_right h.le]
  · simp [not_lt.mpr h, max_eq_left h]

/-- `if x > c then c else x` is `min x c`. -/
theorem ite_gt_eq_min (x c : ℚ) : (if x > c then c else x) = min x c := by
  rcases le_or_lt x c with h | h
  · simp [not_lt.mpr h, min_eq_left h]
  · simp [h, min_eq_right h.le]

/-- Closed form of the X-edge heuristic in terms of the effective
edges. -/
theorem getXPoint_eq (sd : SelectionData) (x : ℚ) :
    getXPoint sd x =
      if regionLeftEdge sd < x ∧ x < regionRightEdge sd then x
      else if |regionLeftEdge sd - x| < |regionRightEdge sd - x| then
        regionLeftEdge sd
      else regionRightEdge sd := rfl

/-- C2: the X-edge heuristic returns the pointer x when it lies
strictly between the effective `left` and `right` edges; otherwise it
returns whichever edge is strictly closer in absolute distance, with a
distance tie resolved to `right`; with edges 10 and 50 it maps pointer
30 to 30, pointer 5 to 10 and pointer 55 to 50. -/
theorem getXPoint_spec (sd : SelectionData) (x : ℚ) :
    (regionLeftEdge sd < x ∧ x < regionRightEdge sd → getXPoint sd x = x) ∧
    (¬(regionLeftEdge sd < x ∧ x < regionRightEdge sd) →
      getXPoint sd x =
        if |regionLeftEdge sd - x| < |regionRightEdge sd - x| then
          regionLeftEdge sd
        else regionRightEdge sd) ∧
    (¬(regionLeftEdge sd < x ∧ x < regionRightEdge sd) →
      |regionLeftEdge sd - x| = |regionRightEdge sd - x| →
      getXPoint sd x = regionRightEdge sd) ∧
    getXPoint sampleRegionLR 30 = 30 ∧
    getXPoint sampleRegionLR 5 = 10 ∧
    getXPoint sampleRegionLR 55 = 50 := by
  refine ⟨?_, ?_, ?_,
    by norm_num [getXPoint_eq, regionLeftEdge, regionRightEdge, sampleRegionLR],
    by norm_num [getXPoint_eq, regionLeftEdge, regionRightEdge, sampleRegionLR],
    by norm_num [getXPoint_eq, regionLeftEdge, regionRightEdge, sampleRegionLR]⟩
  · intro h
    rw [getXPoint_eq, if_pos h]
  · intro h
    rw [getXPoint_eq, if_neg h]
  · intro h htie
    rw [getXPoint_eq, if_neg h, if_neg (by rw [htie]; exact lt_irrefl _)]

/-- Witness for `getXPoint_spec` at concrete inputs: edges 10 and 50,
pointers 30 (inside), 5 (closer to left) and 30 again for the tie
shape. -/
theorem getXPoint_spec_witness :
    getXPoint sampleRegionLR 30 = 30 ∧ getXPoint sampleRegionLR 5 = 10 := by
  have h := getXPoint_spec sampleRegionLR 30
  have h5 := getXPoint_spec sampleRegionLR 5
  refine ⟨h.1 (by norm_num [regionLeftEdge, regionRightEdge, sampleRegionLR]),
    (h5.2.1 (by norm_num [regionLeftEdge, regionRightEdge, sampleRegionLR])).trans
      (by norm_num [regionLeftEdge, regionRightEdge, sampleRegionLR])⟩

/-- C5 (counterexample): the claimed worked example is arithmetically
wrong: rect `{left 100, top -5, width 50}` against viewport width 120
yields `x = 100 - (100 + 50 - 120) = 70`, not 90. -/
theorem getConstrainedPosition_example_refuted :
    getConstrainedPosition ⟨0, 100, -5, 50⟩ ⟨120⟩ = (70, 0) ∧
    (70 : ℚ) ≠ 90 := by
  constructor
  · norm_num [getConstrainedPosition]
  · norm_num

/-- C5 (amended): the viewport constraint solver returns `x` reduced
by the right-edge overflow exactly when `left + width` exceeds the
viewport width (so `x` may be negative — no left-edge clamp), and `y`
floored at 0; it is a pure function of its two arguments; the worked
example rect `{left 100, top -5, width 50}` against viewport width 120
yields `(70, 0)`. -/
theorem getConstrainedPosition_spec (attrs : Attrs) (vp : ViewPane) :
    getConstrainedPosition attrs vp =
      ((if attrs.left + attrs.width > vp.width then
          attrs.left - (attrs.left + attrs.width - vp.width)
        else attrs.left),
        max attrs.top 0) ∧
    getConstrainedPosition ⟨0, 100, -5, 50⟩ ⟨120⟩ = (70, 0) ∧
    getConstrainedPosition attrs vp = getConstrainedPosition attrs vp := by
  refine ⟨?_, by norm_num [getConstrainedPosition], rfl⟩
  show (_, if attrs.top < 0 then (0 : ℚ) else attrs.top) = _
  rw [ite_lt_zero_eq_max]

/-- C6: the placement translator's closed form on every direction:
vertical directions center horizontally on the anchor and offset
vertically by gutter (below) or by widget height plus gutter (above);
horizontal directions offset by half the widget height (right) or one
and a half widget heights (left) and center vertically; no direction
passes the anchor through; both coordinates are floored at 0; the
worked example (TOP_TO_BOTTOM, anchor (100,50), widget 80×20, gutter
(0,10)) yields (60, 60). -/
theorem getWidgetXYPoint_spec (node : NodeSize) (g : Gutter) (l t : ℚ) :
    getWidgetXYPoint node g l t Direction.topToBottom =
      (max (l - g.left - node.offsetWidth / 2) 0, max (t + g.top) 0) ∧
    getWidgetXYPoint node g l t Direction.bottomToTop =
      (max (l - g.left - node.offsetWidth / 2) 0,
        max (t - node.offsetHeight - g.top) 0) ∧
    getWidgetXYPoint node g l t Direction.leftToRight =
      (max (l + g.left + node.offsetHeight / 2) 0,
        max (t - g.top - node.offsetHeight / 2) 0) ∧
    getWidgetXYPoint node g l t Direction.rightToLeft =
      (max (l - 3 * node.offsetHeight / 2 - g.left) 0,
        max (t - g.top - node.offsetHeight / 2) 0) ∧
    getWidgetXYPoint node g l t Direction.noDirection =
      (max l 0, max t 0) ∧
    getWidgetXYPoint ⟨80, 20⟩ ⟨0, 10⟩ 100 50 Direction.topToBottom =
      (60, 60) := by
  refine ⟨?_, ?_, ?_, ?_, ?_, by norm_num [getWidgetXYPoint]⟩ <;>
    simp only [getWidgetXYPoint, ite_lt_zero_eq_max] <;> rfl

/-- Reduction of the resolver when the payload has no native event:
the unconditional `pageX` read fails. -/
theorem getInteractionPoint_noNativeEvent (payload : EventPayload)
    (h : payload.nativeEvent = none) :
    getInteractionPoint (some ⟨some payload⟩) =
      Except.error JsError.typeError := by
  obtain ⟨sd, pne⟩ := payload
  change pne = none at h
  subst h
  rfl

/-- Reduction of the resolver when the payload carries a native
event. -/
theorem getInteractionPoint_some (payload : EventPayload)
    (ne : NativeEvent) (h : payload.nativeEvent = some ne) :
    getInteractionPoint (some ⟨some payload⟩) =
      (if truthyNum ne.pageX ∧
          truthyNum (some payload.selectionData.region.top) then
        Except.ok (some ⟨resolvedDirection payload.selectionData,
          getXPoint payload.selectionData (ne.pageX.getD 0),
          if resolvedDirection payload.selectionData =
              Direction.bottomToTop then
            min payload.selectionData.region.top
              payload.selectionData.region.top
          else
            max payload.selectionData.region.top
              (getYPoint (some payload.selectionData) (some ne))⟩)
      else
        Except.ok (some ⟨resolvedDirection payload.selectionData,
          payload.selectionData.region.left +
            payload.selectionData.region.width / 2,
          if resolvedDirection payload.selectionData =
              Direction.topToBottom then
            getYPoint (some payload.selectionData) (some ne)
          else payload.selectionData.region.top⟩)) := by
  obtain ⟨sd, pne⟩ := payload
  change pne = some ne at h
  subst h
  rfl

/-- C9: resolving with an absent interaction event — no editor event
at all, or one whose data payload is null — returns no point
(`ok none`); the resolver is modelled as a pure function, so the
result carries no side effect. -/
theorem getInteractionPoint_absent_event (editorEvent : Option EditorEvent) :
    (editorEvent = none → getInteractionPoint editorEvent = Except.ok none) ∧
    (∀ ev : EditorEvent, editorEvent = some ev → ev.data = none →
      getInteractionPoint editorEvent = Except.ok none) := by
  constructor
  · rintro rfl
    rfl
  · rintro ⟨d⟩ rfl hd
    change d = none at hd
    subst hd
    rfl

/-- Witness for `getInteractionPoint_absent_event`: the two concrete
absent-event shapes. -/
theorem getInteractionPoint_absent_event_witness :
    getInteractionPoint none = Except.ok none ∧
    getInteractionPoint (some ⟨none⟩) = Except.ok none :=
  ⟨(getInteractionPoint_absent_event none).1 rfl,
    (getInteractionPoint_absent_event (some ⟨none⟩)).2 ⟨none⟩ rfl rfl⟩

/-- C10: a payload that carries selection data but no native event
makes the resolver fail with a TypeError — the source reads
`eventPayload.nativeEvent.pageX` before any branching — rather than
fall through to the no-pointer branch (it returns no `ok` result at
all). -/
theorem getInteractionPoint_requires_nativeEvent (payload : EventPayload)
    (h : payload.nativeEvent = none) :
    getInteractionPoint (some ⟨some payload⟩) =
      Except.error JsError.typeError ∧
    ∀ r : Option InteractionPoint,
      getInteractionPoint (some ⟨some payload⟩) ≠ Except.ok r := by
  refine ⟨getInteractionPoint_noNativeEvent payload h, fun r hr => ?_⟩
  rw [getInteractionPoint_noNativeEvent payload h] at hr
  exact Except.noConfusion hr

/-- Witness for `getInteractionPoint_requires_nativeEvent`: a concrete
payload with selection data and `nativeEvent` absent. -/
theorem getInteractionPoint_requires_nativeEvent_witness :
    getInteractionPoint (some ⟨some ⟨sampleRegionLR, none⟩⟩) =
      Except.error JsError.typeError :=
  (getInteractionPoint_requires_nativeEvent ⟨sampleRegionLR, none⟩ rfl).1

/-- Any point the resolver returns carries the override-resolved
direction. -/
theorem getInteractionPoint_direction_eq (payload : EventPayload)
    (ne : NativeEvent) (h : payload.nativeEvent = some ne)
    (p : InteractionPoint)
    (hp : getInteractionPoint (some ⟨some payload⟩) =
      Except.ok (some p)) :
    p.direction = resolvedDirection payload.selectionData := by
  rw [getInteractionPoint_some payload ne h] at hp
  split_ifs at hp <;>
    · have h1 := Option.some.inj (Except.ok.inj hp)
      rw [← h1]

/-- C4: when both sub-rects are present with equal `top` values, every
point the resolver returns has direction BOTTOM_TO_TOP, regardless of
the region's own reported direction. -/
theorem getInteractionPoint_singleLine_direction (payload : EventPayload)
    (sr er : Rect) (p : InteractionPoint)
    (hs : payload.selectionData.region.startRect = some sr)
    (he : payload.selectionData.region.endRect = some er)
    (ht : sr.top = er.top)
    (hp : getInteractionPoint (some ⟨some payload⟩) =
      Except.ok (some p)) :
    p.direction = Direction.bottomToTop := by
  cases hne : payload.nativeEvent with
  | none =>
    rw [getInteractionPoint_noNativeEvent payload hne] at hp
    exact Except.noConfusion hp
  | some ne =>
    rw [getInteractionPoint_direction_eq payload ne hne p hp]
    unfold resolvedDirection
    rw [hs, he]
    simp [ht]

/-- Witness for `getInteractionPoint_singleLine_direction`: the
single-line region whose reported direction is TOP_TO_BOTTOM still
resolves to BOTTOM_TO_TOP. -/
theorem getInteractionPoint_singleLine_direction_witness :
    (⟨Direction.bottomToTop, 4, 5⟩ : InteractionPoint).direction =
      Direction.bottomToTop ∧
    singleLineRegion.direction = Direction.topToBottom := by
  constructor
  · refine getInteractionPoint_singleLine_direction singleLinePayload
      ⟨1, 5, 3⟩ ⟨7, 5, 9⟩ ⟨Direction.bottomToTop, 4, 5⟩ rfl rfl rfl ?_
    rw [getInteractionPoint_some singleLinePayload ⟨some 4, none⟩ rfl]
    rw [if_pos ⟨by norm_num [truthyNum, singleLinePayload],
      by norm_num [truthyNum, singleLinePayload, singleLineRegion]⟩]
    norm_num [singleLinePayload, singleLineRegion, resolvedDirection,
      getXPoint, min_def]
  · rfl

/-- C3 (counterexample): with `pageX` present but equal to 0 (falsy in
JavaScript) and region top 5, the resolver takes the no-pointer branch
and returns y = 2 (the Y-edge heuristic of the scrollable target),
not the greater of (pointer y, Y-edge heuristic) = max 5 2 = 5 that
the claim requires for a pointer whose `pageX` is merely present. -/
theorem getInteractionPoint_truthiness_refuted :
    zeroXNativeEvent.pageX = some 0 ∧
    pointerRegion.top = 5 ∧
    resolvedDirection ⟨pointerRegion⟩ = Direction.topToBottom ∧
    getInteractionPoint (some ⟨some zeroXPayload⟩) =
      Except.ok (some ⟨Direction.topToBottom, 5, 2⟩) ∧
    max pointerRegion.top
      (getYPoint (some ⟨pointerRegion⟩) (some zeroXNativeEvent)) = 5 ∧
    (2 : ℚ) ≠ 5 := by
  refine ⟨rfl, rfl, rfl, ?_, ?_, by norm_num⟩
  · rw [getInteractionPoint_some zeroXPayload zeroXNativeEvent rfl,
      if_neg ?_]
    · norm_num [zeroXPayload, zeroXNativeEvent, pointerRegion,
        resolvedDirection, getYPoint]
    · rintro ⟨h1, _⟩
      norm_num [truthyNum, zeroXPayload, zeroXNativeEvent] at h1
  · norm_num [getYPoint, zeroXNativeEvent, pointerRegion, max_def]

/-- C3 (amended): writing "usable pointer" for the JavaScript-truthy
test the source performs (`pageX` present and nonzero, region top
nonzero): with a usable pointer the resolver's y is the lesser of
(pos.y, region top) for direction BOTTOM_TO_TOP and the greater of
(pos.y, Y-edge heuristic) otherwise; without one, x is the region's
horizontal midpoint and y is the Y-edge heuristic for TOP_TO_BOTTOM
and the region top for any other direction; the Y-edge heuristic
returns the target's offsetTop + offsetHeight when its overflow style
is "auto", the region's bottom otherwise, and 0 when the selection
data or the native event is absent. -/
theorem getInteractionPoint_y_rules (payload : EventPayload)
    (ne : NativeEvent) (hne : payload.nativeEvent = some ne) :
    (∀ px : ℚ, ne.pageX = some px → px ≠ 0 →
      payload.selectionData.region.top ≠ 0 →
      getInteractionPoint (some ⟨some payload⟩) =
        Except.ok (some ⟨resolvedDirection payload.selectionData,
          getXPoint payload.selectionData px,
          if resolvedDirection payload.selectionData =
              Direction.bottomToTop then
            min payload.selectionData.region.top
              payload.selectionData.region.top
          else
            max payload.selectionData.region.top
              (getYPoint (some payload.selectionData) (some ne))⟩)) ∧
    (truthyNum ne.pageX = false ∨
        payload.selectionData.region.top = 0 →
      getInteractionPoint (some ⟨some payload⟩) =
        Except.ok (some ⟨resolvedDirection payload.selectionData,
          payload.selectionData.region.left +
            payload.selectionData.region.width / 2,
          if resolvedDirection payload.selectionData =
              Direction.topToBottom then
            getYPoint (some payload.selectionData) (some ne)
          else payload.selectionData.region.top⟩)) ∧
    (∀ (sd : SelectionData) (ne0 : NativeEvent) (t : Target),
      ne0.target = some t →
      getYPoint (some sd) (some ne0) =
        if t.overflow = "auto" then t.offsetTop + t.offsetHeight
        else sd.region.bottom) ∧
    (∀ (sd : SelectionData) (ne0 : NativeEvent), ne0.target = none →
      getYPoint (some sd) (some ne0) = sd.region.bottom) ∧
    (∀ ne0 : NativeEvent, getYPoint none (some ne0) = 0) ∧
    (∀ osd : Option SelectionData, getYPoint osd none = 0) := by
  refine ⟨?_, ?_, ?_, ?_, fun _ => rfl, fun osd => ?_⟩
  · intro px hpx hpx0 htop
    rw [getInteractionPoint_some payload ne hne, hpx,
      if_pos ⟨by simp [truthyNum, hpx0], by simp [truthyNum, htop]⟩]
    simp
  · intro hcase
    rw [getInteractionPoint_some payload ne hne, if_neg ?_]
    rintro ⟨h1, h2⟩
    rcases hcase with hfal | htop
    · rw [hfal] at h1
      exact Bool.false_ne_true h1
    · simp [truthyNum, htop] at h2
  · intro sd ne0 t ht
    obtain ⟨px0, tgt⟩ := ne0
    change tgt = some t at ht
    subst ht
    rfl
  · intro sd ne0 ht
    obtain ⟨px0, tgt⟩ := ne0
    change tgt = none at ht
    subst ht
    rfl
  · cases osd <;> rfl

/-- Witness for `getInteractionPoint_y_rules`: the concrete pointer
payload (pageX 4, region top 5, direction TOP_TO_BOTTOM, no target)
resolves to y = max 5 8 = 8. -/
theorem getInteractionPoint_y_rules_witness :
    getInteractionPoint (some ⟨some pointerPayload⟩) =
      Except.ok (some ⟨Direction.topToBottom, 4, 8⟩) := by
  have h := (getInteractionPoint_y_rules pointerPayload
    ⟨some 4, none⟩ rfl).1 4 rfl (by norm_num) (by norm_num [pointerPayload, pointerRegion])
  rw [h]
  norm_num [pointerPayload, pointerRegion, resolvedDirection, getXPoint,
    getYPoint, max_def]
  decide

/-- C7 (counterexample): with a container of total width 10 and a
widget 20 wide, `updatePosition` caps the already-floored left
coordinate at totalWidth − widgetWidth = −10, so the resulting left is
below 0 — the claimed clamp into [0, totalWidth − widgetWidth] fails
when the widget is wider than the container. -/
theorem updatePosition_clamp_refuted :
    totalWidth narrowUiNode - smallNode.offsetWidth = -10 ∧
    updatePosition (some pointerEditorEvent) (some smallNode)
      narrowUiNode defaultGutter = Except.ok (some (-10, 21)) ∧
    (-10 : ℚ) < 0 := by
  refine ⟨by norm_num [totalWidth, narrowUiNode, smallNode], ?_, by norm_num⟩
  have hip : getInteractionPoint (some pointerEditorEvent) =
      Except.ok (some ⟨Direction.topToBottom, 4, 8⟩) := by
    rw [show pointerEditorEvent = ⟨some pointerPayload⟩ from rfl,
      getInteractionPoint_some pointerPayload ⟨some 4, none⟩ rfl]
    rw [if_pos ⟨by norm_num [truthyNum, pointerPayload],
      by norm_num [truthyNum, pointerPayload, pointerRegion]⟩]
    norm_num [pointerPayload, pointerRegion, resolvedDirection,
      getXPoint, getYPoint, max_def]
    decide
  have hs : effectiveScrollTop narrowUiNode = 3 := by
    show (if narrowUiNode.tagName ≠ "BODY" then narrowUiNode.scrollTop
      else 0) = 3
    rw [if_pos (by decide)]
    rfl
  have htw : totalWidth narrowUiNode = 10 := by
    norm_num [totalWidth, narrowUiNode]
  simp only [updatePosition, hip]
  norm_num [getWidgetXYPoint, smallNode, defaultGutter, htw, hs]

/-- C7 (amended): for every resolvable interaction point and mounted
widget, `updatePosition` adds the container's scroll offset (its
`scrollTop`, or 0 when the container is the document body) to the
computed top, floors the computed left at 0 and then caps it at
totalWidth − widgetWidth; whenever the widget is no wider than the
container this places left in [0, totalWidth − widgetWidth] (when it
is wider, the cap is applied last and left ends at the negative
totalWidth − widgetWidth). -/
theorem updatePosition_clamp (editorEvent : Option EditorEvent)
    (node : NodeSize) (uiNode : UiNode) (g : Gutter)
    (p : InteractionPoint)
    (hp : getInteractionPoint editorEvent = Except.ok (some p)) :
    updatePosition editorEvent (some node) uiNode g =
      Except.ok (some
        (min (max (getWidgetXYPoint node g p.x p.y p.direction).1 0)
          (totalWidth uiNode - node.offsetWidth),
        (getWidgetXYPoint node g p.x p.y p.direction).2 +
          effectiveScrollTop uiNode)) ∧
    (node.offsetWidth ≤ totalWidth uiNode →
      0 ≤ min (max (getWidgetXYPoint node g p.x p.y p.direction).1 0)
          (totalWidth uiNode - node.offsetWidth) ∧
      min (max (getWidgetXYPoint node g p.x p.y p.direction).1 0)
          (totalWidth uiNode - node.offsetWidth) ≤
        totalWidth uiNode - node.offsetWidth) := by
  constructor
  · simp only [updatePosition, hp]
    rw [ite_lt_zero_eq_max, ite_gt_eq_min]
  · intro h
    exact ⟨le_min (le_max_right _ 0) (by linarith),
      min_le_right _ _⟩

/-- Witness for `updatePosition_clamp`: the concrete pointer event
against the 200-wide container. -/
theorem updatePosition_clamp_witness :
    updatePosition (some pointerEditorEvent) (some smallNode)
      wideUiNode defaultGutter =
      Except.ok (some
        (min (max (getWidgetXYPoint smallNode defaultGutter 4 8
            Direction.topToBottom).1 0)
          (totalWidth wideUiNode - smallNode.offsetWidth),
        (getWidgetXYPoint smallNode defaultGutter 4 8
            Direction.topToBottom).2 +
          effectiveScrollTop wideUiNode)) ∧
    (0 : ℚ) ≤ min (max (getWidgetXYPoint smallNode defaultGutter 4 8
        Direction.topToBottom).1 0)
      (totalWidth wideUiNode - smallNode.offsetWidth) := by
  have hip : getInteractionPoint (some pointerEditorEvent) =
      Except.ok (some ⟨Direction.topToBottom, 4, 8⟩) := by
    rw [show pointerEditorEvent = ⟨some pointerPayload⟩ from rfl,
      getInteractionPoint_some pointerPayload ⟨some 4, none⟩ rfl]
    rw [if_pos ⟨by norm_num [truthyNum, pointerPayload],
      by norm_num [truthyNum, pointerPayload, pointerRegion]⟩]
    norm_num [pointerPayload, pointerRegion, resolvedDirection,
      getXPoint, getYPoint, max_def]
    decide
  have h := updatePosition_clamp (some pointerEditorEvent) smallNode
    wideUiNode defaultGutter ⟨Direction.topToBottom, 4, 8⟩ hip
  exact ⟨h.1, (h.2 (by norm_num [totalWidth, wideUiNode, smallNode])).1⟩

/-- C1 (counterexample): two consecutive schedulings with no frame
fired in between — e.g. two `moveToPoint` calls — leave two
animation-frame handles outstanding: `_animate` never cancels the
previously stored handle, so the claimed at-most-one-outstanding
invariant fails on a concrete operation sequence. -/
theorem animate_invariant_refuted :
    ¬ atMostOneOutstanding
      (runAnimOps [AnimOp.schedule, AnimOp.schedule] initAnimState) ∧
    (runAnimOps [AnimOp.schedule, AnimOp.schedule]
      initAnimState).pending = [1, 0] := by
  constructor
  · intro h
    simp [atMostOneOutstanding, runAnimOps, animate, initAnimState] at h
  · rfl

/-- C1 (amended): `_animate` requests a new frame without cancelling
the prior pending one: it merely overwrites `_animationFrameId`, so
after two consecutive schedulings both handles are pending and a
subsequent `cancelAnimation` removes only the newer handle — the older
(stale) callback remains outstanding. -/
theorem animate_overwrites_without_cancel (s : AnimState)
    (h : ∀ i ∈ s.pending, i < s.nextId) :
    (animate s).animationFrameId = some s.nextId ∧
    (animate s).pending = s.nextId :: s.pending ∧
    (cancelAnimation (animate (animate s))).pending =
      s.nextId :: s.pending := by
  refine ⟨rfl, rfl, ?_⟩
  have hne : s.nextId ≠ s.nextId + 1 := (Nat.succ_ne_self s.nextId).symm
  simp [cancelAnimation, animate, List.filter_cons, hne]
  intro a ha
  exact Nat.ne_of_lt (Nat.lt_succ_of_lt (h a ha))

/-- Witness for `animate_overwrites_without_cancel`: from the initial
state, handle 0 is still pending after scheduling twice and
cancelling. -/
theorem animate_overwrites_without_cancel_witness :
    (cancelAnimation (animate (animate initAnimState))).pending = [0] :=
  (animate_overwrites_without_cancel initAnimState
    (fun i hi => absurd hi (List.not_mem_nil i))).2.2

/-- A class just added is in the class list. -/
theorem mem_addClass (cs : List String) (c : String) : c ∈ addClass cs c := by
  unfold addClass
  split
  · assumption
  · simp

/-- After `moveToPoint` (with its frame callback applied) the widget
carries the visibility marker class. -/
theorem moveToPoint_visible (d : DomState) (sp ep : ℚ × ℚ) :
    isVisible (some (moveToPoint d sp ep).1) = true := by
  show decide (("alloy-editor-visible" : String) ∈
    (moveToPoint d sp ep).1.classes) = true
  rw [decide_eq_true_eq]
  show ("alloy-editor-visible" : String) ∈
    addClass (addClass (removeClass d.classes "alloy-editor-invisible")
      "ae-toolbar-transition") "alloy-editor-visible"
  exact mem_addClass _ _

/-- C8: `show` is a no-op — unchanged state, zero DOM mutations — when
the widget is already visible or not mounted; and immediately after
any completed `show`, a second `show` performs zero DOM mutations and
leaves the state unchanged (concurrent calls are ignored, not
queued). -/
theorem showWidget_idempotent (env : ShowEnv) (dom : Option DomState) :
    ((isVisible dom = true ∨ dom = none) →
      showWidget env dom = Except.ok (dom, [])) ∧
    (∀ (dom1 : Option DomState) (muts : List Mutation),
      showWidget env dom = Except.ok (dom1, muts) →
      showWidget env dom1 = Except.ok (dom1, [])) := by
  have hvis : ∀ d : DomState, isVisible (some d) = true →
      showWidget env (some d) = Except.ok (some d, []) := by
    intro d hv
    simp [showWidget, hv]
  constructor
  · rintro (hv | rfl)
    · cases dom with
      | none => rfl
      | some d => exact hvis d hv
    · rfl
  · intro dom1 muts hshow
    cases dom with
    | none =>
      rw [show showWidget env none = Except.ok (none, []) from rfl] at hshow
      simp only [Except.ok.injEq, Prod.mk.injEq] at hshow
      obtain ⟨rfl, rfl⟩ := hshow
      rfl
    | some d =>
      cases hv : isVisible (some d) with
      | true =>
        rw [hvis d hv] at hshow
        simp only [Except.ok.injEq, Prod.mk.injEq] at hshow
        obtain ⟨rfl, rfl⟩ := hshow
        exact hvis d hv
      | false =>
        cases hip : getInteractionPoint env.editorEvent with
        | error e =>
          simp only [showWidget, hv, Bool.false_eq_true, if_false,
            hip] at hshow
          exact Except.noConfusion hshow
        | ok p =>
          cases p with
          | none =>
            simp only [showWidget, hv, Bool.false_eq_true, if_false,
              hip, Except.ok.injEq, Prod.mk.injEq] at hshow
            obtain ⟨rfl, rfl⟩ := hshow
            simp [showWidget, hv, hip]
          | some ip =>
            simp only [showWidget, hv, Bool.false_eq_true, if_false,
              hip, Except.ok.injEq, Prod.mk.injEq] at hshow
            obtain ⟨rfl, rfl⟩ := hshow
            exact hvis _ (moveToPoint_visible _ _ _)

/-- Witness for `showWidget_idempotent`: a concrete already-visible
widget: `show` leaves it unchanged with zero mutations. -/
theorem showWidget_idempotent_witness :
    showWidget emptyShowEnv (some visibleDom) =
      Except.ok (some visibleDom, []) :=
  (showWidget_idempotent emptyShowEnv (some visibleDom)).1
    (Or.inl (by simp [isVisible, visibleDom]))

end Theorems

end AlloyEditor
